import Mathlib

/-!
Verification development for the trollbox backend (a realtime room-scoped
chat server).  The repository holds three variants of the same server:
`src/server.js` (the named file) and two unnamed variants
`src/unnamed/part_000` and `src/unnamed/part_001`.

The socket layer of `src/server.js` is embedded below as an explicit state
machine (`St`, `step`): JS `Map`s become association lists in insertion
order, JS `Set`s of primitive values become duplicate-free lists in
insertion order, and JS `Set`s of *objects* (the per-board presence sets)
become lists of entries tagged with an allocation number `ref`, because JS
sets of objects compare by reference, never by structural value.  Emitted
socket events are collected in a list (`Ev`).  Clock values (`Date.now()`)
and generated message ids are passed in as explicit inputs.

The relevant differing parts of the `part_000` variant (user directory
keyed by lowercased name with hash-derived stable ids, no Anonymous
fallback on message send) are embedded with a `p0` name prefixed to each
definition.  The crashing `add_reaction` broadcast of `server.js` and of
the `part_001` variant is embedded with an `Except` result.
-/

/-- A registered user record, as stored in the `users` map of server.js. -/
structure User where
  id : Nat
  username : String
  avatar : String
deriving Repr, DecidableEq

/-- One live transport session: `sid` is socket.id, `ip` the client origin
captured at connect time, `timestamps` the rate-limit window array held in
`messageTimestamps` (cleared on disconnect), `live` whether the socket is
still connected. -/
structure Socket where
  sid : Nat
  ip : String
  live : Bool
  timestamps : List Nat
deriving Repr, DecidableEq

/-- One `userInfo` object added to a board's presence set by join_board.
`ref` is the allocation tag standing for JS object reference identity:
every join allocates a fresh object, so `Set.add` never deduplicates. -/
structure Entry where
  ref : Nat
  socketId : Nat
  userId : Nat
  username : String
  avatar : String
deriving Repr, DecidableEq

/-- A stored chat message (`messageData` in server.js).  `createdAt` stands
for the ISO timestamp string (the wall clock value is kept, the string
formatting is not modelled). -/
structure Msg where
  id : Nat
  board_id : String
  user_id : Nat
  username : String
  avatar : String
  message : String
  createdAt : Nat
deriving Repr, DecidableEq

/-- The projection of an Entry that join/leave/disconnect broadcast in
`online_users_update`. -/
structure RosterEntry where
  userId : Nat
  username : String
  avatar : String
deriving Repr, DecidableEq

/-- Outbound socket events of server.js.  Board-targeted events carry the
board id, socket-targeted (private) events carry the receiving socket id. -/
inductive Ev where
  | onlineUsersUpdate (boardId : String) (users : List RosterEntry) (count : Nat)
  | userCountUpdate (boardId : String) (count : Nat)
  | newMessage (boardId : String) (m : Msg)
  | confettiTrigger (boardId : String) (messageId : Nat)
  | notice (sid : Nat) (text : String)
  | errorNotice (sid : Nat) (text : String)
deriving Repr, DecidableEq

/-- Association-list read with default, modelling `map.get(k)` with a
fallback (`|| deflt`). JS `Map` keeps insertion order; `find?` takes the
first (and only) entry for a key. -/
def assocGetD [BEq κ] (m : List (κ × α)) (k : κ) (d : α) : α :=
  match m.find? (fun p => p.1 == k) with
  | some p => p.2
  | none => d

/-- Association-list write, modelling `map.set(k, v)`: update in place when
the key exists (keeping order), append otherwise. -/
def assocSet [BEq κ] (m : List (κ × α)) (k : κ) (v : α) : List (κ × α) :=
  if m.any (fun p => p.1 == k) then
    m.map (fun p => if p.1 == k then (k, v) else p)
  else m ++ [(k, v)]

/-- JS `Set.add` on primitive values: insert at the end unless present. -/
def setAdd [BEq α] (l : List α) (x : α) : List α :=
  if l.contains x then l else l ++ [x]

/-- Leading-segment match on character lists (structural equality). -/
def leadMatch : List Char → List Char → Bool
  | [], _ => true
  | _ :: _, [] => false
  | a :: as, b :: bs => a == b && leadMatch as bs

/-- Substring test on character lists. -/
def containsSub (needle : List Char) : List Char → Bool
  | [] => needle.isEmpty
  | c :: cs => leadMatch needle (c :: cs) || containsSub needle cs

/-- Whitespace as trimmed by `String.prototype.trim` (restricted to the
ASCII whitespace characters that occur in this development). -/
def isJsWs (c : Char) : Bool :=
  c == ' ' || c == '\t' || c == '\n' || c == '\r'

/-- JS `s.trim()`: strip whitespace from both ends. -/
def jsTrim (s : String) : String :=
  String.mk (((s.toList.dropWhile isJsWs).reverse.dropWhile isJsWs).reverse)

/-- JS `s.substring(0, n)` / `s.slice(0, n)` on the ASCII strings used
here (code units and code points coincide). -/
def strTake (s : String) (n : Nat) : String :=
  String.mk (s.toList.take n)

/-- JS `s.slice(n)` on the ASCII strings used here. -/
def strDrop (s : String) (n : Nat) : String :=
  String.mk (s.toList.drop n)

/-- JS `s.startsWith(p)`. -/
def strStarts (s p : String) : Bool :=
  leadMatch p.toList s.toList

/-- ASCII uppercase of one character. -/
def upChar (c : Char) : Char :=
  if 'a' ≤ c && c ≤ 'z' then Char.ofNat (c.toNat - 32) else c

/-- ASCII lowercase of one character. -/
def downChar (c : Char) : Char :=
  if 'A' ≤ c && c ≤ 'Z' then Char.ofNat (c.toNat + 32) else c

/-- JS `s.toUpperCase()` on ASCII strings. -/
def jsToUpper (s : String) : String :=
  String.mk (s.toList.map upChar)

/-- JS `s.toLowerCase()` on ASCII strings. -/
def jsToLower (s : String) : String :=
  String.mk (s.toList.map downChar)

/-- The global state of server.js: the in-memory storage maps plus the set
of sockets seen by the connection handler. -/
structure St where
  users : List User
  userIdCounter : Nat
  messagesMap : List (String × List Msg)
  boardUsers : List (String × List Entry)
  bannedIPs : List String
  sockets : List Socket
  reactions : List (Nat × List (String × List Nat))
  refCounter : Nat
deriving Repr, DecidableEq

/-- Server configuration: `MOD_USER_ID` is `null` in the committed source
(`none` here) and is meant to be edited to a concrete user id (`some n`). -/
structure Config where
  modUserId : Option Nat
deriving Repr, DecidableEq

/-- The six predefined boards of server.js. -/
def boardIds : List String := ["b", "biz", "pol", "crypto", "tech", "memes"]

/-- Initial state: user counter 1 with the Anonymous user registered under
id 1, an empty message list per predefined board, everything else empty. -/
def initSt : St where
  users := [⟨1, "Anonymous", "AN"⟩]
  userIdCounter := 1
  messagesMap := boardIds.map (fun b => (b, []))
  boardUsers := []
  bannedIPs := []
  sockets := []
  reactions := []
  refCounter := 0

/-- Find the users-map record for a numeric id (`users.get(uid)` /
`users.has(uid)`). -/
def lookupUser (us : List User) (uid : Nat) : Option User :=
  us.find? (fun u => u.id == uid)

/-- Find a socket record by socket id. -/
def lookupSocket (socks : List Socket) (sid : Nat) : Option Socket :=
  socks.find? (fun s => s.sid == sid)

/-- Replace the socket record with the given id. -/
def updateSocket (socks : List Socket) (sid : Nat) (f : Socket → Socket) :
    List Socket :=
  socks.map (fun s => if s.sid == sid then f s else s)

/-- JS strict equality `messageUserId === MOD_USER_ID`, where the left side
is the (possibly missing, i.e. undefined) payload field and the right side
is the configured id or null.  Strict equality holds only when both sides
are numbers and equal: `undefined === null` is false. -/
def jsStrictEq (a b : Option Nat) : Bool :=
  match a, b with
  | some x, some y => x == y
  | _, _ => false

/-- The trailing-window eviction loop of send_message:
`while (timestamps.length && timestamps[0] < Date.now() - 30000) shift()`.
Nat subtraction truncates at zero exactly as the JS comparison against a
negative bound never fires for nonnegative timestamps. -/
def trimOld : List Nat → Nat → List Nat
  | [], _ => []
  | t :: rest, now => if t < now - 30000 then trimOld rest now else t :: rest

/-- Bounded append of server.js lines 220-222: push, then a single shift
when the length exceeds 1000. -/
def appendBounded (l : List α) (m : α) : List α :=
  let l2 := l ++ [m]
  if l2.length > 1000 then l2.tail else l2

/-- The confetti trigger test `/based/i.test(trimmedMessage)`: the fixed
pattern "based" matched case-insensitively, i.e. a substring test on the
lowercased text (the pattern is plain ASCII). -/
def hasBased (s : String) : Bool :=
  containsSub "based".toList (jsToLower s).toList

/-- The roster projection broadcast on presence changes. -/
def rosterOf (es : List Entry) : List RosterEntry :=
  es.map (fun u => ⟨u.userId, u.username, u.avatar⟩)

/-- The pair of events every presence mutation broadcasts to the board. -/
def presenceBroadcast (bid : String) (es : List Entry) : List Ev :=
  [Ev.onlineUsersUpdate bid (rosterOf es) es.length,
   Ev.userCountUpdate bid es.length]

/-- Remove the first entry whose socketId matches (the for-of loop with
`break` in leave_board and in the server.js disconnect handler), returning
the removed entry if any. -/
def removeFirstBySid : List Entry → Nat → Option Entry × List Entry
  | [], _ => (none, [])
  | e :: rest, sid =>
    if e.socketId == sid then (some e, rest)
    else
      let r := removeFirstBySid rest sid
      (r.1, e :: r.2)

/-- The disconnect handler's sweep over all boards (server.js lines
262-290): remove the first matching entry per board and broadcast the
roster for each board where a removal happened. -/
def cleanupBoards : List (String × List Entry) → Nat →
    List (String × List Entry) × List Ev
  | [], _ => ([], [])
  | (bid, es) :: rest, sid =>
    let r := removeFirstBySid es sid
    let tailRes := cleanupBoards rest sid
    let here := match r.1 with
      | some _ => presenceBroadcast bid r.2
      | none => []
    ((bid, r.2) :: tailRes.1, here ++ tailRes.2)

/-- Effect of `socket.disconnect(true)` together with the registered
disconnect handler: drop the rate-limit window, sweep the presence sets,
mark the socket closed.  A no-op on sockets that are already closed or
were never accepted. -/
def disconnectSocket (st : St) (sid : Nat) : St × List Ev :=
  match lookupSocket st.sockets sid with
  | none => (st, [])
  | some s =>
    if s.live then
      let r := cleanupBoards st.boardUsers sid
      let socks2 := updateSocket st.sockets sid
        (fun x => { x with live := false, timestamps := [] })
      ({ st with sockets := socks2, boardUsers := r.1 }, r.2)
    else (st, [])

/-- The connection handler up to handler registration: a banned origin gets
a private error and is closed before any event handler (including the
disconnect cleanup) is attached; otherwise the socket is accepted and its
rate-limit window initialised to the empty array. -/
def handleConnect (st : St) (sid : Nat) (ip : String) : St × List Ev :=
  if st.bannedIPs.contains ip then
    (st, [Ev.errorNotice sid "You are banned from this chat."])
  else
    ({ st with sockets := st.sockets ++ [⟨sid, ip, true, []⟩] }, [])

/-- The join_board handler of server.js (lines 88-122): reject a missing or
unregistered payload user, otherwise allocate a fresh `userInfo` object,
add it to the board's presence set (always appending, since the fresh
object is never reference-equal to an existing one) and broadcast the
roster. -/
def handleJoin (st : St) (sid : Nat) (bid : String) (user : Option User) :
    St × List Ev :=
  match user with
  | none => (st, [])
  | some u =>
    if (lookupUser st.users u.id).isSome then
      let bu0 := if st.boardUsers.any (fun p => p.1 == bid) then st.boardUsers
                 else st.boardUsers ++ [(bid, [])]
      let entry : Entry := ⟨st.refCounter, sid, u.id, u.username, u.avatar⟩
      let es := assocGetD bu0 bid [] ++ [entry]
      ({ st with boardUsers := assocSet bu0 bid es,
                 refCounter := st.refCounter + 1 },
       presenceBroadcast bid es)
    else (st, [])

/-- The leave_board handler of server.js (lines 124-157): remove the first
presence entry of the leaving socket, broadcasting only when something was
removed. -/
def handleLeave (st : St) (sid : Nat) (bid : String) : St × List Ev :=
  if st.boardUsers.any (fun p => p.1 == bid) then
    let r := removeFirstBySid (assocGetD st.boardUsers bid []) sid
    let st2 := { st with boardUsers := assocSet st.boardUsers bid r.2 }
    match r.1 with
    | some _ => (st2, presenceBroadcast bid r.2)
    | none => (st2, [])
  else (st, [])

/-- User resolution of server.js line 172:
`users.get(messageUserId) || users.get(1)` — an unknown or missing payload
id falls back to the Anonymous user registered at startup. -/
def resolveUser (us : List User) (uid : Option Nat) : Option User :=
  match (match uid with | some n => lookupUser us n | none => none) with
  | some u => some u
  | none => lookupUser us 1

/-- Message construction, bounded store append and broadcast (server.js
lines 209-233), including the confetti trigger. -/
def storeAndBroadcast (st : St) (bid : String) (user : User)
    (trimmed : String) (now mid : Nat) : St × List Ev :=
  let msg : Msg := ⟨mid, bid, user.id, user.username, user.avatar, trimmed, now⟩
  let bm := appendBounded (assocGetD st.messagesMap bid []) msg
  ({ st with messagesMap := assocSet st.messagesMap bid bm },
   Ev.newMessage bid msg ::
     (if hasBased trimmed then [Ev.confettiTrigger bid mid] else []))

/-- Inner loop of the `/ban @name` command: JS `Set.forEach` visits the
snapshot of entries in insertion order but skips entries already deleted by
the forced disconnects the loop body performs; a matching entry bans the
issuer's own origin when it is the issuer's socket and the sentinel
"unknown" otherwise, then force-disconnects the target. -/
def banUserScan (issuerSid : Nat) (issuerIp target bid : String) :
    List Entry → St → St × List Ev
  | [], st => (st, [])
  | e :: rest, st =>
    if (assocGetD st.boardUsers bid []).any (fun x => x.ref == e.ref)
        && e.username == target then
      let tgtIp := if e.socketId == issuerSid then issuerIp else "unknown"
      let st1 := { st with bannedIPs := setAdd st.bannedIPs tgtIp }
      let r := disconnectSocket st1 e.socketId
      let rec2 := banUserScan issuerSid issuerIp target bid rest r.1
      (rec2.1, r.2 ++ rec2.2)
    else banUserScan issuerSid issuerIp target bid rest st

/-- Outer loop of `/ban @name` over all boards (`boardUsers.forEach`): the
loop body never adds or removes boards, so the key snapshot is fixed. -/
def banUserInBoards (issuerSid : Nat) (issuerIp target : String) :
    List String → St → St × List Ev
  | [], st => (st, [])
  | bid :: rest, st =>
    let r := banUserScan issuerSid issuerIp target bid
      (assocGetD st.boardUsers bid []) st
    let r2 := banUserInBoards issuerSid issuerIp target rest r.1
    (r2.1, r.2 ++ r2.2)

/-- The send_message handler of server.js (lines 159-234): rate-limit
book-keeping and auto-ban, user resolution with Anonymous fallback, empty
check on the trimmed text, the moderator command block, then the ordinary
store-and-broadcast path. -/
def handleSend (cfg : Config) (st : St) (sid : Nat) (bid : String)
    (text : String) (uid : Option Nat) (now mid : Nat) : St × List Ev :=
  match lookupSocket st.sockets sid with
  | none => (st, [])
  | some s =>
    if s.live then
      let ts2 := trimOld (s.timestamps ++ [now]) now
      let socks2 := updateSocket st.sockets sid (fun x => { x with timestamps := ts2 })
      let st1 := { st with sockets := socks2 }
      if ts2.length > 10 then
        let st2 := { st1 with bannedIPs := setAdd st1.bannedIPs s.ip }
        let r := disconnectSocket st2 sid
        (r.1, Ev.errorNotice sid "Banned for spamming." :: r.2)
      else
        match resolveUser st1.users uid with
        | none => (st1, [Ev.errorNotice sid "Invalid user"])
        | some user =>
          let trimmed := jsTrim text
          if trimmed == "" then (st1, [])
          else if jsStrictEq uid cfg.modUserId then
            if strStarts trimmed "/banip " then
              let ip := jsTrim (strDrop trimmed 7)
              ({ st1 with bannedIPs := setAdd st1.bannedIPs ip },
               [Ev.notice sid ("Banned IP " ++ ip)])
            else if strStarts trimmed "/ban @" then
              let target := jsTrim (strDrop trimmed 6)
              let r := banUserInBoards sid s.ip target
                (st1.boardUsers.map (fun p => p.1)) st1
              (r.1, r.2 ++ [Ev.notice sid ("Banned user @" ++ target)])
            else storeAndBroadcast st1 bid user trimmed now mid
          else storeAndBroadcast st1 bid user trimmed now mid
    else (st, [])

/-- Inbound events of the socket layer.  `send_message` carries the wall
clock reading and the generated message id as explicit oracle inputs.  The
add_reaction handler is modelled separately (`addReactionServer`) because
its broadcast step raises and never returns to the event loop normally. -/
inductive Input where
  | connect (sid : Nat) (ip : String)
  | joinBoard (sid : Nat) (boardId : String) (user : Option User)
  | leaveBoard (sid : Nat) (boardId : String)
  | sendMessage (sid : Nat) (boardId : String) (text : String)
      (userId : Option Nat) (now : Nat) (msgId : Nat)
  | disconnect (sid : Nat)
deriving Repr, DecidableEq

/-- One step of the server.js socket layer. -/
def step (cfg : Config) (st : St) : Input → St × List Ev
  | .connect sid ip => handleConnect st sid ip
  | .joinBoard sid bid user =>
    match lookupSocket st.sockets sid with
    | some s => if s.live then handleJoin st sid bid user else (st, [])
    | none => (st, [])
  | .leaveBoard sid bid =>
    match lookupSocket st.sockets sid with
    | some s => if s.live then handleLeave st sid bid else (st, [])
    | none => (st, [])
  | .sendMessage sid bid text uid now mid =>
    handleSend cfg st sid bid text uid now mid
  | .disconnect sid => disconnectSocket st sid

/-- Run a list of inbound events, collecting all emitted events. -/
def runSteps (cfg : Config) (st : St) : List Input → St × List Ev
  | [] => (st, [])
  | i :: is =>
    let r := step cfg st i
    let r2 := runSteps cfg r.1 is
    (r2.1, r.2 ++ r2.2)

/-- The POST /api/users handler of server.js (lines 57-68): reject an
empty-after-trim name, otherwise bump the counter and always mint a fresh
record (this variant performs no lookup of existing names).  `take` models
`substring` (code units) on the ASCII names used here. -/
def registerUser (st : St) (username : String) : Option User × St :=
  if jsTrim username == "" then (none, st)
  else
    let cnt := st.userIdCounter + 1
    let trimmed := strTake (jsTrim username) 20
    let av0 := jsToUpper (strTake trimmed 2)
    let avatar := if av0 == "" then "AN" else av0
    let user : User := ⟨cnt, trimmed, avatar⟩
    (some user, { st with userIdCounter := cnt, users := st.users ++ [user] })

/-- The history endpoint GET /api/boards/:boardId/messages:
`(messages.get(boardId) || []).slice(-100)` — the last 100 stored
messages, empty for an unknown or empty board. -/
def recentMessages (st : St) (bid : String) : List Msg :=
  let l := assocGetD st.messagesMap bid []
  l.drop (l.length - 100)

/-- Errors raised by evaluating faulty JS expressions. -/
inductive JsError where
  | referenceError (name : String)
  | typeError (msg : String)
deriving Repr, DecidableEq

/-- The pure data part of the add_reaction handler (server.js lines
241-249): ensure the per-message map and per-emoji set exist, then
`Set.add` the numeric user id (value semantics, so the insert is
idempotent). -/
def recordReaction (r : List (Nat × List (String × List Nat)))
    (mid : Nat) (emoji : String) (uid : Nat) :
    List (Nat × List (String × List Nat)) :=
  let r0 := if r.any (fun p => p.1 == mid) then r else r ++ [(mid, [])]
  let mr := assocGetD r0 mid []
  let mr0 := if mr.any (fun p => p.1 == emoji) then mr else mr ++ [(emoji, [])]
  let s := assocGetD mr0 emoji []
  assocSet r0 mid (assocSet mr0 emoji (setAdd s uid))

/-- The reactor id list recorded for one (message, emoji) pair. -/
def reactorsOf (r : List (Nat × List (String × List Nat)))
    (mid : Nat) (emoji : String) : List Nat :=
  assocGetD (assocGetD r mid []) emoji []

/-- The add_reaction handler of server.js (lines 237-260).  After the
reaction is recorded, the broadcast line evaluates
`io.to(currentBoard || boardId)`; `currentBoard` is declared nowhere in
server.js and `boardId` is not bound in this handler's scope either, so
looking up `currentBoard` raises a ReferenceError before any emit: the
handler returns the mutated reactions map and no events. -/
def addReactionServer (st : St) (mid : Nat) (emoji : String) (uid : Nat) :
    St × Except JsError (List Ev) :=
  match lookupUser st.users uid with
  | none => (st, Except.ok [])
  | some _ =>
    let r := recordReaction st.reactions mid emoji uid
    ({ st with reactions := r },
     Except.error (JsError.referenceError "currentBoard"))

/-- The add_reaction handler of the part_001 variant (lines 183-204).  The
snapshot loop `msgReactions.forEach((users, emo) => ...)` shadows the
global `users` map with the per-emoji `Set`; the callback then calls
`users.get(id)` on that Set, which has no `get` method, so the first
callback invocation raises a TypeError.  The set for the emoji just added
is never empty, so the error always fires and nothing is emitted. -/
def addReactionP1 (st : St) (mid : Nat) (emoji : String) (uid : Nat) :
    St × Except JsError (List Ev) :=
  match lookupUser st.users uid with
  | none => (st, Except.ok [])
  | some _ =>
    let r := recordReaction st.reactions mid emoji uid
    ({ st with reactions := r },
     if (assocGetD r mid []).any (fun p => !p.2.isEmpty) then
       Except.error (JsError.typeError "users.get is not a function")
     else Except.ok [])

/-- Wrap an integer to a signed 32-bit value, as the JS operators `<<` and
`& ` (ToInt32 coercion) do. -/
def toInt32 (n : Int) : Int :=
  let m := n.emod 4294967296
  if m ≥ 2147483648 then m - 4294967296 else m

/-- The hash loop of part_000's generateUserId:
`hash = ((hash << 5) - hash) + charCode; hash = hash & hash`.  The shift is
a 32-bit operation, the subtraction and addition are exact, and `& ` wraps
the result back to 32 bits.  `Char.toNat` stands for `charCodeAt` (equal on
the ASCII and BMP names involved). -/
def jsHash : List Char → Int → Int
  | [], h => h
  | c :: cs, h => jsHash cs (toInt32 (toInt32 (h * 32) - h + (c.toNat : Int)))

/-- part_000's deterministic user id: `Math.abs(hash) + 1`. -/
def generateUserId (s : String) : Nat :=
  (jsHash s.toList 0).natAbs + 1

/-- The global state of the part_000 variant.  Its `users` map is keyed by
the lowercased display name; it starts empty (no Anonymous entry) and the
per-board message lists are created on demand. -/
structure P0St where
  users : List (String × User)
  messagesMap : List (String × List Msg)
  boardUsers : List (String × List Entry)
  bannedIPs : List String
  sockets : List Socket
  refCounter : Nat
deriving Repr, DecidableEq

/-- Initial state of the part_000 variant. -/
def p0Init : P0St where
  users := []
  messagesMap := []
  boardUsers := []
  bannedIPs := []
  sockets := []
  refCounter := 0

/-- The POST /api/users handler of part_000 (lines 59-83): reject an
empty-after-trim name; normalise (trim, truncate to 20, with a dead
Anonymous fallback kept from the source, split out as `p0Norm`); return
the existing record on a case-insensitive display-name match, otherwise
mint a record keyed by the lowercased name with the hash-derived id. -/
def p0Norm (username : String) : String :=
  let n0 := strTake (jsTrim username) 20
  if n0.length < 1 then "Anonymous" else n0

/-- Continuation of the doc above: registration proper. -/
def p0Register (st : P0St) (username : String) : Option User × P0St :=
  if jsTrim username == "" then (none, st)
  else
    let name := p0Norm username
    match st.users.find? (fun p => jsToLower p.2.username == jsToLower name) with
    | some p => (some p.2, st)
    | none =>
      let uid := generateUserId name
      let av0 := jsToUpper (strTake name 2)
      let avatar := if av0 == "" then "AN" else av0
      let user : User := ⟨uid, name, avatar⟩
      (some user, { st with users := st.users ++ [(jsToLower name, user)] })

/-- User resolution of part_000's send_message (lines 147-158): scan the
directory values for a record with the supplied id; there is no fallback,
and a missing payload id matches nothing. -/
def p0ResolveUser (us : List (String × User)) (uid : Option Nat) : Option User :=
  match uid with
  | some n =>
    match us.find? (fun p => p.2.id == n) with
    | some p => some p.2
    | none => none
  | none => none

/-- The disconnect sweep of part_000 (lines 215-242): its `Set.forEach`
deletes every matching entry (no break), then broadcasts once per board
where a removal happened. -/
def p0CleanupBoards : List (String × List Entry) → Nat →
    List (String × List Entry) × List Ev
  | [], _ => ([], [])
  | (bid, es) :: rest, sid =>
    let kept := es.filter (fun e => e.socketId != sid)
    let tailRes := p0CleanupBoards rest sid
    let here := if kept.length == es.length then []
                else presenceBroadcast bid kept
    ((bid, kept) :: tailRes.1, here ++ tailRes.2)

/-- Forced or client disconnect in part_000: clear the rate window, sweep
every board, close the socket. -/
def p0DisconnectSocket (st : P0St) (sid : Nat) : P0St × List Ev :=
  match lookupSocket st.sockets sid with
  | none => (st, [])
  | some s =>
    if s.live then
      let r := p0CleanupBoards st.boardUsers sid
      let socks2 := updateSocket st.sockets sid
        (fun x => { x with live := false, timestamps := [] })
      ({ st with sockets := socks2, boardUsers := r.1 }, r.2)
    else (st, [])

/-- The connection handler of part_000: identical ban gate and rate-window
initialisation. -/
def p0HandleConnect (st : P0St) (sid : Nat) (ip : String) : P0St × List Ev :=
  if st.bannedIPs.contains ip then
    (st, [Ev.errorNotice sid "You are banned from this chat."])
  else
    ({ st with sockets := st.sockets ++ [⟨sid, ip, true, []⟩] }, [])

/-- Inner `/ban @name` loop of part_000, as in server.js but with the
part_000 disconnect sweep. -/
def p0BanUserScan (issuerSid : Nat) (issuerIp target bid : String) :
    List Entry → P0St → P0St × List Ev
  | [], st => (st, [])
  | e :: rest, st =>
    if (assocGetD st.boardUsers bid []).any (fun x => x.ref == e.ref)
        && e.username == target then
      let tgtIp := if e.socketId == issuerSid then issuerIp else "unknown"
      let st1 := { st with bannedIPs := setAdd st.bannedIPs tgtIp }
      let r := p0DisconnectSocket st1 e.socketId
      let rec2 := p0BanUserScan issuerSid issuerIp target bid rest r.1
      (rec2.1, r.2 ++ rec2.2)
    else p0BanUserScan issuerSid issuerIp target bid rest st

/-- Outer `/ban @name` loop of part_000 over the board snapshot. -/
def p0BanUserInBoards (issuerSid : Nat) (issuerIp target : String) :
    List String → P0St → P0St × List Ev
  | [], st => (st, [])
  | bid :: rest, st =>
    let r := p0BanUserScan issuerSid issuerIp target bid
      (assocGetD st.boardUsers bid []) st
    let r2 := p0BanUserInBoards issuerSid issuerIp target rest r.1
    (r2.1, r.2 ++ r2.2)

/-- The send_message handler of part_000 (lines 133-213): the same
rate-limit gate, then user resolution by id scan with a private error and
stop when the id is unknown, the empty-trim check, the moderator command
block and the ordinary store-and-broadcast path. -/
def p0HandleSend (cfg : Config) (st : P0St) (sid : Nat) (bid : String)
    (text : String) (uid : Option Nat) (now mid : Nat) : P0St × List Ev :=
  match lookupSocket st.sockets sid with
  | none => (st, [])
  | some s =>
    if s.live then
      let ts2 := trimOld (s.timestamps ++ [now]) now
      let socks2 := updateSocket st.sockets sid (fun x => { x with timestamps := ts2 })
      let st1 := { st with sockets := socks2 }
      if ts2.length > 10 then
        let st2 := { st1 with bannedIPs := setAdd st1.bannedIPs s.ip }
        let r := p0DisconnectSocket st2 sid
        (r.1, Ev.errorNotice sid "Banned for spamming." :: r.2)
      else
        match p0ResolveUser st1.users uid with
        | none => (st1, [Ev.errorNotice sid "Invalid user"])
        | some user =>
          let trimmed := jsTrim text
          if trimmed == "" then (st1, [])
          else if jsStrictEq uid cfg.modUserId then
            if strStarts trimmed "/banip " then
              let ip := jsTrim (strDrop trimmed 7)
              ({ st1 with bannedIPs := setAdd st1.bannedIPs ip },
               [Ev.notice sid ("Banned IP " ++ ip)])
            else if strStarts trimmed "/ban @" then
              let target := jsTrim (strDrop trimmed 6)
              let r := p0BanUserInBoards sid s.ip target
                (st1.boardUsers.map (fun p => p.1)) st1
              (r.1, r.2 ++ [Ev.notice sid ("Banned user @" ++ target)])
            else
              let msg : Msg := ⟨mid, bid, user.id, user.username, user.avatar, trimmed, now⟩
              let bm := appendBounded (assocGetD st1.messagesMap bid []) msg
              ({ st1 with messagesMap := assocSet st1.messagesMap bid bm },
               Ev.newMessage bid msg ::
                 (if hasBased trimmed then [Ev.confettiTrigger bid mid] else []))
          else
            let msg : Msg := ⟨mid, bid, user.id, user.username, user.avatar, trimmed, now⟩
            let bm := appendBounded (assocGetD st1.messagesMap bid []) msg
            ({ st1 with messagesMap := assocSet st1.messagesMap bid bm },
             Ev.newMessage bid msg ::
               (if hasBased trimmed then [Ev.confettiTrigger bid mid] else []))
    else (st, [])

/-- The payload user matching the startup Anonymous record. -/
def anonUser : User := ⟨1, "Anonymous", "AN"⟩

/-- Abbreviation for the state after send_message's rate-window update:
the socket's timestamp array is replaced, everything else untouched. -/
def withWindow (st : St) (sid : Nat) (ts : List Nat) : St :=
  { st with sockets := updateSocket st.sockets sid (fun x => { x with timestamps := ts }) }

/-- One send_message payload: board, text, supplied userId, wall clock
reading and generated message id. -/
structure SendEv where
  bid : String
  text : String
  uid : Option Nat
  now : Nat
  mid : Nat
deriving Repr, DecidableEq

/-- The inbound event for a send_message payload from a given socket. -/
def SendEv.toInput (sid : Nat) (p : SendEv) : Input :=
  Input.sendMessage sid p.bid p.text p.uid p.now p.mid

/-- Ten equally-benign send payloads at clock readings 0..9. -/
def spamPs : List SendEv := (List.range 10).map (fun k => ⟨"b", "hi", some 1, k, k⟩)

/-- The eleventh send payload at clock reading 10. -/
def spamP11 : SendEv := ⟨"b", "hi", some 1, 10, 10⟩

/-- The state after one unbanned connect from origin 1.2.3.4. -/
def spamSt : St := (step ⟨none⟩ initSt (Input.connect 1 "1.2.3.4")).1

/-- A board's store built by appending a sequence of messages to the empty
board through the bounded append of send_message. -/
def buildStore (ms : List Msg) : List Msg := ms.foldl appendBounded []

/-- 1001 pairwise-distinct messages (ids 0..1000). -/
def fifoMsgs : List Msg := (List.range 1001).map (fun i => ⟨i, "b", 1, "u", "U", "m", i⟩)

/-- The celebratory broadcast events among a list of emitted events. -/
def isConfetti (e : Ev) : Bool :=
  match e with
  | Ev.confettiTrigger _ _ => true
  | _ => false

/-- Abbreviation for the part_000 state after the rate-window update. -/
def p0WithWindow (st : P0St) (sid : Nat) (ts : List Nat) : P0St :=
  { st with sockets := updateSocket st.sockets sid (fun x => { x with timestamps := ts }) }

/-- C1 counterexample: from the initial state, one connection joining the
board "b" twice produces a reachable state whose presence registry holds
two memberships for the same (boardId, connectionId) pair — the join
handler appends a fresh userInfo object each time and never deduplicates. -/
theorem join_twice_creates_duplicate_membership :
    ((assocGetD (runSteps ⟨none⟩ initSt
        [Input.connect 1 "ip1",
         Input.joinBoard 1 "b" (some anonUser),
         Input.joinBoard 1 "b" (some anonUser)]).1.boardUsers
      "b" []).filter (fun e => e.socketId == 1)).length = 2 := by decide

/-- C1 amended: joining the same board twice from the same connection adds
a second membership for the same (boardId, connectionId) pair, the roster
broadcast after the second join lists the connection twice, and a
subsequent leave_board removes only one of the two entries, so a stale
duplicate membership survives in the presence state and in the roster
broadcast after the sequence. -/
theorem presence_duplicate_and_stale_after_leave :
    (((assocGetD (runSteps ⟨none⟩ initSt
        [Input.connect 1 "ip1",
         Input.joinBoard 1 "b" (some anonUser),
         Input.joinBoard 1 "b" (some anonUser)]).1.boardUsers
      "b" []).filter (fun e => e.socketId == 1)).length = 2) ∧
    ((runSteps ⟨none⟩ initSt
        [Input.connect 1 "ip1",
         Input.joinBoard 1 "b" (some anonUser)]).2 ++
      (step ⟨none⟩ (runSteps ⟨none⟩ initSt
        [Input.connect 1 "ip1",
         Input.joinBoard 1 "b" (some anonUser)]).1
        (Input.joinBoard 1 "b" (some anonUser))).2
      = [Ev.onlineUsersUpdate "b" [⟨1, "Anonymous", "AN"⟩] 1,
         Ev.userCountUpdate "b" 1,
         Ev.onlineUsersUpdate "b"
           [⟨1, "Anonymous", "AN"⟩, ⟨1, "Anonymous", "AN"⟩] 2,
         Ev.userCountUpdate "b" 2]) ∧
    (((assocGetD (runSteps ⟨none⟩ initSt
        [Input.connect 1 "ip1",
         Input.joinBoard 1 "b" (some anonUser),
         Input.joinBoard 1 "b" (some anonUser),
         Input.leaveBoard 1 "b"]).1.boardUsers
      "b" []).filter (fun e => e.socketId == 1)).length = 1) := by decide

/-- C4 counterexample: in server.js, registering the display name "Bob"
twice mints two distinct identities (ids 2 and 3) — the POST /api/users
handler performs no lookup of existing names. -/
theorem register_twice_mints_two_ids :
    (registerUser initSt "Bob").1 = some ⟨2, "Bob", "BO"⟩ ∧
    (registerUser (registerUser initSt "Bob").2 "Bob").1 = some ⟨3, "Bob", "BO"⟩ ∧
    (registerUser (registerUser initSt "Bob").2 "Bob").2.users.length = 3 := by
  decide

/-- C3 counterexample: a send_message whose identityId (999) is not
registered is not rejected by server.js: the resolution falls back to the
Anonymous user, the message is stored on the board and broadcast, and no
error notice is emitted. -/
theorem unknown_identity_stored_as_anonymous :
    lookupUser initSt.users 999 = none ∧
    (runSteps ⟨none⟩ initSt
      [Input.connect 1 "ip1",
       Input.sendMessage 1 "b" "hello" (some 999) 5 77]).2
      = [Ev.newMessage "b" ⟨77, "b", 1, "Anonymous", "AN", "hello", 5⟩] ∧
    assocGetD (runSteps ⟨none⟩ initSt
      [Input.connect 1 "ip1",
       Input.sendMessage 1 "b" "hello" (some 999) 5 77]).1.messagesMap "b" []
      = [⟨77, "b", 1, "Anonymous", "AN", "hello", 5⟩] := by decide

/-- C2 counterexample: in the part_000 variant a sender whose supplied
userId (5) is not a registered identity (and differs from the configured
moderator id 7) sends the text "/banip 1.2.3.4"; the message is NOT stored
or broadcast — the handler stops with a private error — though the banned
set is indeed unchanged. -/
theorem p0_unregistered_banip_not_stored :
    (p0HandleSend ⟨some 7⟩ (p0HandleConnect p0Init 1 "ip").1
        1 "b" "/banip 1.2.3.4" (some 5) 0 0).2
      = [Ev.errorNotice 1 "Invalid user"] ∧
    (p0HandleSend ⟨some 7⟩ (p0HandleConnect p0Init 1 "ip").1
        1 "b" "/banip 1.2.3.4" (some 5) 0 0).1.messagesMap = [] ∧
    (p0HandleSend ⟨some 7⟩ (p0HandleConnect p0Init 1 "ip").1
        1 "b" "/banip 1.2.3.4" (some 5) 0 0).1.bannedIPs = [] := by decide

/-- C7 counterexample: with the moderator id configured to 1, the
moderator issuing `/banip vip` while socket 2 is connected from origin
"vip" yields a reachable state in which "vip" is in the banned set and
socket 2 is still live — `/banip` disconnects nobody. -/
theorem banip_banned_origin_keeps_live_connection :
    (runSteps ⟨some 1⟩ initSt
      [Input.connect 1 "modip", Input.connect 2 "vip",
       Input.sendMessage 1 "b" "/banip vip" (some 1) 0 0]).1.bannedIPs.contains
      "vip" = true ∧
    lookupSocket (runSteps ⟨some 1⟩ initSt
      [Input.connect 1 "modip", Input.connect 2 "vip",
       Input.sendMessage 1 "b" "/banip vip" (some 1) 0 0]).1.sockets 2
      = some ⟨2, "vip", true, []⟩ := by decide

/-- A list with no entry for a key finds nothing for that key. -/
theorem find?_none_of_not_any [BEq κ] (m : List (κ × α)) (k : κ)
    (h : m.any (fun p => p.1 == k) = false) :
    m.find? (fun p => p.1 == k) = none := by
  induction m with
  | nil => rfl
  | cons a as ih =>
    simp only [List.any_cons, Bool.or_eq_false_iff] at h
    simp [List.find?, h.1, ih h.2]

/-- Searching an append skips a first block that finds nothing. -/
theorem find?_append_left_none [BEq κ] (l1 l2 : List (κ × α))
    (p : κ × α → Bool) (h : l1.find? p = none) :
    (l1 ++ l2).find? p = l2.find? p := by
  induction l1 with
  | nil => rfl
  | cons a as ih =>
    by_cases hp : p a = true
    · rw [List.find?_cons_of_pos _ hp] at h
      cases h
    · rw [List.find?_cons_of_neg _ hp] at h
      rw [List.cons_append, List.find?_cons_of_neg _ hp]
      exact ih h

/-- After `assocSet m k v`, looking up `k` yields `v`. -/
theorem assocGetD_assocSet [BEq κ] [LawfulBEq κ] (m : List (κ × α)) (k : κ)
    (v d : α) : assocGetD (assocSet m k v) k d = v := by
  unfold assocSet
  cases h : m.any (fun p => p.1 == k) with
  | true =>
    simp only [if_pos rfl]
    induction m with
    | nil => simp at h
    | cons a as ih =>
      by_cases ha : a.1 == k
      · simp [assocGetD, List.find?, ha]
      · rw [Bool.not_eq_true] at ha
        simp only [List.any_cons, ha, Bool.false_or] at h
        simpa [assocGetD, List.find?, ha] using ih h
  | false =>
    simp only [Bool.false_eq_true, if_false]
    unfold assocGetD
    rw [find?_append_left_none _ _ _ (find?_none_of_not_any m k h)]
    simp [List.find?]

/-- Looking up a key untouched by the ensure-present step of a JS
`if (!m.has(k)) m.set(k, empty)` idiom is unchanged. -/
theorem assocGetD_ensure [BEq κ] [LawfulBEq κ] (m : List (κ × α)) (k : κ) (d : α) :
    assocGetD (if m.any (fun p => p.1 == k) then m else m ++ [(k, d)]) k d
      = assocGetD m k d := by
  cases h : m.any (fun p => p.1 == k) with
  | true => simp
  | false =>
    simp only [Bool.false_eq_true, if_false]
    unfold assocGetD
    rw [find?_append_left_none _ _ _ (find?_none_of_not_any m k h),
        find?_none_of_not_any m k h]
    simp [List.find?]

/-- An element is a member after `setAdd`. -/
theorem mem_setAdd [BEq α] [LawfulBEq α] (l : List α) (x : α) :
    x ∈ setAdd l x := by
  unfold setAdd
  by_cases h : l.contains x = true
  · simp only [h, if_true]
    exact List.mem_of_elem_eq_true h
  · rw [Bool.not_eq_true] at h
    simp only [h, Bool.false_eq_true, if_false]
    exact List.mem_append_right _ (List.mem_singleton.mpr rfl)

/-- `setAdd` of a present element is the identity. -/
theorem setAdd_of_contains [BEq α] (l : List α) (x : α)
    (h : l.contains x = true) : setAdd l x = l := by
  simp [setAdd, h]

/-- `setAdd` is idempotent. -/
theorem setAdd_setAdd (l : List α) [BEq α] [LawfulBEq α] (x : α) :
    setAdd (setAdd l x) x = setAdd l x := by
  refine setAdd_of_contains _ _ ?_
  have := mem_setAdd l x
  exact List.elem_eq_true_of_mem this

/-- Updating a socket through a sid-preserving function relocates nothing:
looking up the updated sid sees the function applied. -/
theorem lookupSocket_updateSocket (socks : List Socket) (sid : Nat)
    (f : Socket → Socket) (hf : ∀ s, (f s).sid = s.sid) :
    lookupSocket (updateSocket socks sid f) sid
      = Option.map f (lookupSocket socks sid) := by
  induction socks with
  | nil => rfl
  | cons a as ih =>
    unfold lookupSocket updateSocket at *
    cases ha : (a.sid == sid) with
    | true =>
      have hfa : ((f a).sid == sid) = true := by rw [hf a]; exact ha
      rw [List.map_cons, if_pos ha, List.find?_cons, List.find?_cons, hfa, ha]
      rfl
    | false =>
      rw [List.map_cons, if_neg (by simp [ha]), List.find?_cons, List.find?_cons,
          ha]
      exact ih

/-- Updating one socket leaves lookups of other sids unchanged. -/
theorem lookupSocket_updateSocket_ne (socks : List Socket) (sid sid2 : Nat)
    (f : Socket → Socket) (hf : ∀ s, (f s).sid = s.sid) (hne : sid2 ≠ sid) :
    lookupSocket (updateSocket socks sid f) sid2 = lookupSocket socks sid2 := by
  induction socks with
  | nil => rfl
  | cons a as ih =>
    unfold lookupSocket updateSocket at *
    cases ha : (a.sid == sid) with
    | true =>
      have hsid : a.sid = sid := eq_of_beq ha
      have hno : ((f a).sid == sid2) = false := by
        rw [hf a, hsid]
        exact beq_eq_false_iff_ne.mpr (fun hx => hne hx.symm)
      have hno2 : (a.sid == sid2) = false := by
        rw [hsid]
        exact beq_eq_false_iff_ne.mpr (fun hx => hne hx.symm)
      rw [List.map_cons, if_pos ha, List.find?_cons, List.find?_cons, hno, hno2]
      exact ih
    | false =>
      cases hb : (a.sid == sid2) with
      | true =>
        rw [List.map_cons, if_neg (by simp [ha]), List.find?_cons,
            List.find?_cons, hb]
      | false =>
        rw [List.map_cons, if_neg (by simp [ha]), List.find?_cons,
            List.find?_cons, hb]
        exact ih

/-- The eviction loop does nothing when every timestamp is inside the
trailing window. -/
theorem trimOld_noop (ts : List Nat) (now : Nat)
    (h : ∀ t ∈ ts, ¬ t < now - 30000) : trimOld ts now = ts := by
  cases ts with
  | nil => rfl
  | cons t rest =>
    show (if t < now - 30000 then trimOld rest now else t :: rest) = t :: rest
    rw [if_neg (h t (List.mem_cons_self t rest))]

/-- The reactor list recorded by one add_reaction is the JS `Set.add` of
the previous reactor list. -/
theorem reactorsOf_recordReaction (r : List (Nat × List (String × List Nat)))
    (mid : Nat) (emoji : String) (uid : Nat) :
    reactorsOf (recordReaction r mid emoji uid) mid emoji
      = setAdd (reactorsOf r mid emoji) uid := by
  unfold recordReaction reactorsOf
  rw [assocGetD_assocSet, assocGetD_assocSet, assocGetD_ensure, assocGetD_ensure]

/-- On the ordinary path (socket live, under the rate limit, sender
resolved, nonempty trimmed text, not the moderator) send_message reduces
to the store-and-broadcast step on the rate-window-updated state. -/
theorem handleSend_store_eq (cfg : Config) (st : St) (sid : Nat)
    (bid text : String) (uid : Option Nat) (now mid : Nat) (s : Socket) (u : User)
    (hs : lookupSocket st.sockets sid = some s)
    (hlive : s.live = true)
    (hrate : (trimOld (s.timestamps ++ [now]) now).length ≤ 10)
    (hres : resolveUser st.users uid = some u)
    (hmod : jsStrictEq uid cfg.modUserId = false)
    (htrim : jsTrim text ≠ "") :
    handleSend cfg st sid bid text uid now mid =
      storeAndBroadcast (withWindow st sid (trimOld (s.timestamps ++ [now]) now))
        bid u (jsTrim text) now mid := by
  have h10 : ¬ (trimOld (s.timestamps ++ [now]) now).length > 10 := by omega
  have htr : (jsTrim text == "") = false := beq_eq_false_iff_ne.mpr htrim
  unfold handleSend withWindow
  simp only [hs, hlive, if_true, if_neg h10, hres, htr, Bool.false_eq_true,
    if_false, hmod]

/-- When neither the supplied id nor the Anonymous fallback resolves,
send_message emits the private "Invalid user" notice and stops after the
rate-window update. -/
theorem handleSend_invalid_eq (cfg : Config) (st : St) (sid : Nat)
    (bid text : String) (uid : Option Nat) (now mid : Nat) (s : Socket)
    (hs : lookupSocket st.sockets sid = some s)
    (hlive : s.live = true)
    (hrate : (trimOld (s.timestamps ++ [now]) now).length ≤ 10)
    (hres : resolveUser st.users uid = none) :
    handleSend cfg st sid bid text uid now mid =
      (withWindow st sid (trimOld (s.timestamps ++ [now]) now),
       [Ev.errorNotice sid "Invalid user"]) := by
  have h10 : ¬ (trimOld (s.timestamps ++ [now]) now).length > 10 := by omega
  unfold handleSend withWindow
  simp only [hs, hlive, if_true, if_neg h10, hres]

/-- When the trimmed text is empty (and the sender resolves), send_message
silently stops after the rate-window update. -/
theorem handleSend_empty_eq (cfg : Config) (st : St) (sid : Nat)
    (bid text : String) (uid : Option Nat) (now mid : Nat) (s : Socket) (u : User)
    (hs : lookupSocket st.sockets sid = some s)
    (hlive : s.live = true)
    (hrate : (trimOld (s.timestamps ++ [now]) now).length ≤ 10)
    (hres : resolveUser st.users uid = some u)
    (htrim : jsTrim text = "") :
    handleSend cfg st sid bid text uid now mid =
      (withWindow st sid (trimOld (s.timestamps ++ [now]) now), []) := by
  have h10 : ¬ (trimOld (s.timestamps ++ [now]) now).length > 10 := by omega
  have htr : (jsTrim text == "") = true := beq_iff_eq.mpr htrim
  unfold handleSend withWindow
  simp only [hs, hlive, if_true, if_neg h10, hres, htr]

/-- The `/banip` branch: a resolved moderator sender whose trimmed text
starts with "/banip " adds the parsed origin to the banned set, notifies
the issuer privately, and disconnects nobody. -/
theorem handleSend_banip_eq (cfg : Config) (st : St) (sid : Nat)
    (bid text : String) (uid : Option Nat) (now mid : Nat) (s : Socket) (u : User)
    (hs : lookupSocket st.sockets sid = some s)
    (hlive : s.live = true)
    (hrate : (trimOld (s.timestamps ++ [now]) now).length ≤ 10)
    (hres : resolveUser st.users uid = some u)
    (hmod : jsStrictEq uid cfg.modUserId = true)
    (htrim : jsTrim text ≠ "")
    (hpref : strStarts (jsTrim text) "/banip " = true) :
    handleSend cfg st sid bid text uid now mid =
      ({ withWindow st sid (trimOld (s.timestamps ++ [now]) now) with
          bannedIPs := setAdd st.bannedIPs (jsTrim (strDrop (jsTrim text) 7)) },
       [Ev.notice sid ("Banned IP " ++ jsTrim (strDrop (jsTrim text) 7))]) := by
  have h10 : ¬ (trimOld (s.timestamps ++ [now]) now).length > 10 := by omega
  have htr : (jsTrim text == "") = false := beq_eq_false_iff_ne.mpr htrim
  unfold handleSend withWindow
  simp only [hs, hlive, if_true, if_neg h10, hres, htr, Bool.false_eq_true,
    if_false, hmod, hpref]

/-- The auto-ban branch: when the updated window holds more than 10
timestamps, the sender's origin is banned, a private error is emitted
first, and the socket is force-disconnected (cleanup events follow). -/
theorem handleSend_autoban_eq (cfg : Config) (st : St) (sid : Nat)
    (bid text : String) (uid : Option Nat) (now mid : Nat) (s : Socket)
    (hs : lookupSocket st.sockets sid = some s)
    (hlive : s.live = true)
    (hrate : (trimOld (s.timestamps ++ [now]) now).length > 10) :
    handleSend cfg st sid bid text uid now mid =
      (let st2 := { withWindow st sid (trimOld (s.timestamps ++ [now]) now) with
          bannedIPs := setAdd st.bannedIPs s.ip }
       let r := disconnectSocket st2 sid
       (r.1, Ev.errorNotice sid "Banned for spamming." :: r.2)) := by
  unfold handleSend withWindow
  simp only [hs, hlive, if_true, if_pos hrate]

/-- Forced disconnect never touches the banned set. -/
theorem disconnectSocket_bannedIPs (st : St) (sid : Nat) :
    (disconnectSocket st sid).1.bannedIPs = st.bannedIPs := by
  unfold disconnectSocket
  cases h : lookupSocket st.sockets sid with
  | none => rfl
  | some s =>
    cases hl : s.live with
    | true => simp [hl]
    | false => simp [hl]

/-- After a forced disconnect of a live socket, the socket record is
closed and its window cleared. -/
theorem disconnectSocket_closes (st : St) (sid : Nat) (s : Socket)
    (hs : lookupSocket st.sockets sid = some s) (hlive : s.live = true) :
    lookupSocket (disconnectSocket st sid).1.sockets sid
      = some { s with live := false, timestamps := [] } := by
  unfold disconnectSocket
  simp only [hs, hlive, if_true]
  rw [lookupSocket_updateSocket st.sockets sid
    (fun x => { x with live := false, timestamps := [] }) (fun x => rfl), hs]
  rfl

/-- A connection attempt from a banned origin is rejected: the state is
unchanged and the private rejection notice is the only event. -/
theorem connect_banned_eq (cfg : Config) (st : St) (sid2 : Nat) (ip : String)
    (h : st.bannedIPs.contains ip = true) :
    step cfg st (Input.connect sid2 ip)
      = (st, [Ev.errorNotice sid2 "You are banned from this chat."]) := by
  show handleConnect st sid2 ip = _
  unfold handleConnect
  rw [if_pos h]

/-- Looking up the bumped socket after the rate-window update. -/
theorem lookup_withWindow (st : St) (sid : Nat) (ts : List Nat) (s : Socket)
    (hs : lookupSocket st.sockets sid = some s) :
    lookupSocket (withWindow st sid ts).sockets sid
      = some { s with timestamps := ts } := by
  unfold withWindow
  dsimp only
  rw [lookupSocket_updateSocket st.sockets sid
    (fun x => { x with timestamps := ts }) (fun x => rfl), hs]
  rfl

/-- A send_message from a non-moderator under the rate limit leaves the
sender's socket live with the updated window, whatever the resolution,
trim and store branches do. -/
theorem handleSend_keeps_socket (cfg : Config) (st : St) (sid : Nat)
    (bid text : String) (uid : Option Nat) (now mid : Nat) (s : Socket)
    (hs : lookupSocket st.sockets sid = some s)
    (hlive : s.live = true)
    (hrate : (trimOld (s.timestamps ++ [now]) now).length ≤ 10)
    (hmod : jsStrictEq uid cfg.modUserId = false) :
    lookupSocket (handleSend cfg st sid bid text uid now mid).1.sockets sid
      = some { s with timestamps := trimOld (s.timestamps ++ [now]) now } := by
  cases hres : resolveUser st.users uid with
  | none =>
    rw [handleSend_invalid_eq cfg st sid bid text uid now mid s hs hlive hrate hres]
    exact lookup_withWindow st sid _ s hs
  | some u =>
    by_cases htrim : jsTrim text = ""
    · rw [handleSend_empty_eq cfg st sid bid text uid now mid s u hs hlive hrate
        hres htrim]
      exact lookup_withWindow st sid _ s hs
    · rw [handleSend_store_eq cfg st sid bid text uid now mid s u hs hlive hrate
        hres hmod htrim]
      unfold storeAndBroadcast
      dsimp only
      exact lookup_withWindow st sid _ s hs

/-- Processing a batch of non-moderator send_message events whose clock
readings all lie within one 30-second window (and fit in the 10-message
budget together with the existing window) keeps the sender's socket live
and extends its window by exactly the new readings, evicting nothing. -/
theorem runSends_window (cfg : Config) (sid : Nat) (ps : List SendEv) :
    ∀ (st : St) (s : Socket),
      lookupSocket st.sockets sid = some s →
      s.live = true →
      s.timestamps.length + ps.length ≤ 10 →
      (∀ t ∈ s.timestamps ++ ps.map SendEv.now,
        ∀ u ∈ s.timestamps ++ ps.map SendEv.now, t ≤ u + 30000) →
      (∀ p ∈ ps, jsStrictEq p.uid cfg.modUserId = false) →
      lookupSocket (runSteps cfg st (ps.map (SendEv.toInput sid))).1.sockets sid
        = some { s with timestamps := s.timestamps ++ ps.map SendEv.now } := by
  induction ps with
  | nil =>
    intro st s hs _ _ _ _
    simpa [runSteps] using hs
  | cons p ps ih =>
    intro st s hs hlive hlen hwin hmod
    have hmemp : p.now ∈ s.timestamps ++ (p :: ps).map SendEv.now := by
      refine List.mem_append_right _ ?_
      exact List.mem_map_of_mem _ (List.mem_cons_self p ps)
    have hwinhead : ∀ t ∈ s.timestamps ++ [p.now], ¬ t < p.now - 30000 := by
      intro t ht
      have h1 : t ∈ s.timestamps ++ (p :: ps).map SendEv.now := by
        rcases List.mem_append.mp ht with h | h
        · exact List.mem_append_left _ h
        · rw [List.mem_singleton] at h
          rw [h]
          exact hmemp
      have h3 := hwin p.now hmemp t h1
      omega
    have htrimEq : trimOld (s.timestamps ++ [p.now]) p.now
        = s.timestamps ++ [p.now] := trimOld_noop _ _ hwinhead
    have hrate : (trimOld (s.timestamps ++ [p.now]) p.now).length ≤ 10 := by
      rw [htrimEq]
      simp only [List.length_append, List.length_cons, List.length_nil] at hlen ⊢
      omega
    have hsock := handleSend_keeps_socket cfg st sid p.bid p.text p.uid p.now
      p.mid s hs hlive hrate (hmod p (List.mem_cons_self p ps))
    rw [htrimEq] at hsock
    simp only [List.map_cons, runSteps]
    have hstep : step cfg st (SendEv.toInput sid p)
        = handleSend cfg st sid p.bid p.text p.uid p.now p.mid := rfl
    rw [hstep]
    have hres := ih (handleSend cfg st sid p.bid p.text p.uid p.now p.mid).1
      { s with timestamps := s.timestamps ++ [p.now] } hsock hlive
      (by simp only [List.length_append, List.length_cons, List.length_nil]
            at hlen ⊢
          omega)
      (by intro t ht u hu
          simp only [List.append_assoc, List.singleton_append] at ht hu
          exact hwin t ht u hu)
      (fun q hq => hmod q (List.mem_cons_of_mem p hq))
    rw [hres]
    simp [List.append_assoc]

/-- C5: if a connection with a fresh rate window sends 11 messages whose
clock readings all lie within one 30-second trailing window, then on the
11th message the window holds more than 10 entries, the connection's
origin is added to the banned set, the connection is closed with a private
"Banned for spamming." notice, and any later connection attempt from that
origin is rejected at connect time. -/
theorem spam_eleven_within_window_banned (cfg : Config) (st : St) (sid : Nat)
    (s : Socket) (ps : List SendEv) (p11 : SendEv)
    (hs : lookupSocket st.sockets sid = some s)
    (hlive : s.live = true)
    (hts : s.timestamps = [])
    (hlen : ps.length = 10)
    (hwin : ∀ t ∈ (ps ++ [p11]).map SendEv.now,
      ∀ u ∈ (ps ++ [p11]).map SendEv.now, t ≤ u + 30000)
    (hmod : ∀ p ∈ ps, jsStrictEq p.uid cfg.modUserId = false) :
    s.ip ∈ (step cfg (runSteps cfg st (ps.map (SendEv.toInput sid))).1
        (p11.toInput sid)).1.bannedIPs ∧
    lookupSocket (step cfg (runSteps cfg st (ps.map (SendEv.toInput sid))).1
        (p11.toInput sid)).1.sockets sid = some ⟨s.sid, s.ip, false, []⟩ ∧
    (∃ evs, (step cfg (runSteps cfg st (ps.map (SendEv.toInput sid))).1
        (p11.toInput sid)).2
      = Ev.errorNotice sid "Banned for spamming." :: evs) ∧
    ∀ sid2, step cfg (step cfg (runSteps cfg st (ps.map (SendEv.toInput sid))).1
        (p11.toInput sid)).1 (Input.connect sid2 s.ip)
      = ((step cfg (runSteps cfg st (ps.map (SendEv.toInput sid))).1
          (p11.toInput sid)).1,
         [Ev.errorNotice sid2 "You are banned from this chat."]) := by
  have hwin10 : ∀ t ∈ s.timestamps ++ ps.map SendEv.now,
      ∀ u ∈ s.timestamps ++ ps.map SendEv.now, t ≤ u + 30000 := by
    rw [hts, List.nil_append]
    intro t ht u hu
    refine hwin t ?_ u ?_
    · rw [List.map_append]
      exact List.mem_append_left _ ht
    · rw [List.map_append]
      exact List.mem_append_left _ hu
  have hs10 := runSends_window cfg sid ps st s hs hlive
    (by rw [hts]; simp [hlen]) hwin10 hmod
  rw [hts, List.nil_append] at hs10
  have hstep : step cfg (runSteps cfg st (ps.map (SendEv.toInput sid))).1
      (p11.toInput sid)
      = handleSend cfg (runSteps cfg st (ps.map (SendEv.toInput sid))).1 sid
        p11.bid p11.text p11.uid p11.now p11.mid := rfl
  have hnoev : ∀ t ∈ (ps.map SendEv.now ++ [p11.now]),
      ¬ t < p11.now - 30000 := by
    intro t ht
    have hmem : t ∈ (ps ++ [p11]).map SendEv.now := by
      rw [List.map_append]
      exact ht
    have hmem11 : p11.now ∈ (ps ++ [p11]).map SendEv.now := by
      rw [List.map_append]
      refine List.mem_append_right _ ?_
      exact List.mem_map_of_mem _ (List.mem_singleton.mpr rfl)
    have := hwin p11.now hmem11 t hmem
    omega
  have htrimEq : trimOld (ps.map SendEv.now ++ [p11.now]) p11.now
      = ps.map SendEv.now ++ [p11.now] := trimOld_noop _ _ hnoev
  have hrate11 : (trimOld ((⟨s.sid, s.ip, s.live, ps.map SendEv.now⟩ :
      Socket).timestamps ++ [p11.now]) p11.now).length > 10 := by
    show (trimOld (ps.map SendEv.now ++ [p11.now]) p11.now).length > 10
    rw [htrimEq]
    simp [hlen]
  have hban := handleSend_autoban_eq cfg
    (runSteps cfg st (ps.map (SendEv.toInput sid))).1 sid p11.bid p11.text
    p11.uid p11.now p11.mid ⟨s.sid, s.ip, s.live, ps.map SendEv.now⟩
    hs10 hlive hrate11
  rw [hstep, hban]
  dsimp only
  have hlook2 : lookupSocket ({ withWindow
      (runSteps cfg st (ps.map (SendEv.toInput sid))).1 sid
      (trimOld (ps.map SendEv.now ++ [p11.now]) p11.now) with
      bannedIPs := setAdd
        (runSteps cfg st (ps.map (SendEv.toInput sid))).1.bannedIPs
        s.ip }).sockets sid
      = some ⟨s.sid, s.ip, s.live,
          trimOld (ps.map SendEv.now ++ [p11.now]) p11.now⟩ := by
    show lookupSocket ((withWindow
      (runSteps cfg st (ps.map (SendEv.toInput sid))).1 sid
      (trimOld (ps.map SendEv.now ++ [p11.now]) p11.now)).sockets) sid = _
    rw [lookup_withWindow _ _ _ _ hs10]
  have hbanmem : s.ip ∈ (disconnectSocket { withWindow
      (runSteps cfg st (ps.map (SendEv.toInput sid))).1 sid
      (trimOld (ps.map SendEv.now ++ [p11.now]) p11.now) with
      bannedIPs := setAdd
        (runSteps cfg st (ps.map (SendEv.toInput sid))).1.bannedIPs
        s.ip } sid).1.bannedIPs := by
    rw [disconnectSocket_bannedIPs]
    exact mem_setAdd _ _
  refine ⟨hbanmem, ?_, ⟨_, rfl⟩, ?_⟩
  · have := disconnectSocket_closes _ sid _ hlook2 hlive
    rw [this]
  · intro sid2
    exact connect_banned_eq cfg _ sid2 s.ip (List.elem_eq_true_of_mem hbanmem)

/-- Witness for the auto-ban theorem at concrete inputs. -/
theorem spam_eleven_within_window_banned_witness :
    "1.2.3.4" ∈ (step ⟨none⟩
        (runSteps ⟨none⟩ spamSt (spamPs.map (SendEv.toInput 1))).1
        (spamP11.toInput 1)).1.bannedIPs ∧
    lookupSocket (step ⟨none⟩
        (runSteps ⟨none⟩ spamSt (spamPs.map (SendEv.toInput 1))).1
        (spamP11.toInput 1)).1.sockets 1 = some ⟨1, "1.2.3.4", false, []⟩ ∧
    ∀ sid2, step ⟨none⟩ (step ⟨none⟩
        (runSteps ⟨none⟩ spamSt (spamPs.map (SendEv.toInput 1))).1
        (spamP11.toInput 1)).1 (Input.connect sid2 "1.2.3.4")
      = ((step ⟨none⟩
          (runSteps ⟨none⟩ spamSt (spamPs.map (SendEv.toInput 1))).1
          (spamP11.toInput 1)).1,
         [Ev.errorNotice sid2 "You are banned from this chat."]) := by
  have h := spam_eleven_within_window_banned ⟨none⟩ spamSt 1
    ⟨1, "1.2.3.4", true, []⟩ spamPs spamP11 (by decide) rfl rfl (by decide)
    (by decide) (by decide)
  exact ⟨h.1, h.2.1, h.2.2.2⟩

/-- Appending to a board at or under capacity keeps it at or under
capacity. -/
theorem appendBounded_length_le (l : List α) (m : α) (h : l.length ≤ 1000) :
    (appendBounded l m).length ≤ 1000 := by
  simp only [appendBounded]
  by_cases hc : (l ++ [m]).length > 1000
  · rw [if_pos hc]
    rw [List.length_tail]
    simp only [List.length_append, List.length_cons, List.length_nil] at hc ⊢
    omega
  · rw [if_neg hc]
    omega

/-- Iterated bounded append keeps exactly the most recent 1000 elements in
order: folding from a start segment at or under capacity yields the suffix
of the concatenation past its first (length - 1000) elements. -/
theorem foldl_appendBounded (ms : List α) :
    ∀ (l : List α), l.length ≤ 1000 →
      ms.foldl appendBounded l = (l ++ ms).drop ((l ++ ms).length - 1000) := by
  induction ms with
  | nil =>
    intro l h
    simp only [List.foldl_nil, List.append_nil]
    rw [Nat.sub_eq_zero_of_le h, List.drop_zero]
  | cons m ms ih =>
    intro l h
    rw [List.foldl_cons, ih (appendBounded l m) (appendBounded_length_le l m h)]
    by_cases hc : (l ++ [m]).length > 1000
    · have h1000 : l.length = 1000 := by
        simp only [List.length_append, List.length_cons, List.length_nil] at hc
        omega
      have hab : appendBounded l m = (l ++ [m]).tail := by
        simp only [appendBounded]
        rw [if_pos hc]
      cases l with
      | nil => simp at h1000
      | cons a as =>
        rw [hab]
        simp only [List.cons_append, List.tail_cons]
        have hlen1 : as.length = 999 := by
          simp only [List.length_cons] at h1000
          omega
        have hlen2 : ((as ++ [m]) ++ ms).length - 1000 = ms.length := by
          simp only [List.length_append, List.length_cons, List.length_nil]
          omega
        have hlen3 : (a :: (as ++ m :: ms)).length - 1000 = ms.length + 1 := by
          simp only [List.length_append, List.length_cons, List.length_nil]
          omega
        rw [hlen2, hlen3, List.drop_succ_cons, List.append_assoc,
            List.singleton_append]
    · have hab : appendBounded l m = l ++ [m] := by
        simp only [appendBounded]
        rw [if_neg hc]
      rw [hab, List.append_assoc, List.singleton_append]

/-- C6: bounded append never exceeds 1000 stored messages; building a
board from 1001 appends keeps exactly messages 2..1001 in insertion order
(strict FIFO eviction), so the first message is no longer in the store nor
in the history query over any state holding that store. -/
theorem message_store_bounded_fifo (ms : List Msg) (h1001 : ms.length = 1001)
    (hnd : ms.Nodup) :
    (∀ (l : List Msg) (m : Msg), l.length ≤ 1000 →
      (appendBounded l m).length ≤ 1000) ∧
    buildStore ms = ms.drop 1 ∧
    ∀ m0, ms.head? = some m0 →
      m0 ∉ buildStore ms ∧
      ∀ (st : St) (bid : String),
        assocGetD st.messagesMap bid [] = buildStore ms →
        m0 ∉ recentMessages st bid := by
  have hb : buildStore ms = ms.drop 1 := by
    unfold buildStore
    rw [foldl_appendBounded ms [] (by simp)]
    rw [List.nil_append, h1001]
  refine ⟨fun l m h => appendBounded_length_le l m h, hb, ?_⟩
  intro m0 hm0
  cases ms with
  | nil => cases hm0
  | cons a rest =>
    have ha : m0 = a := by
      simp only [List.head?_cons, Option.some_inj] at hm0
      exact hm0.symm
    have hnotin : m0 ∉ rest := by
      rw [ha]
      exact (List.nodup_cons.mp hnd).1
    have hdrop : buildStore (a :: rest) = rest := by
      rw [hb]
      rfl
    refine ⟨by rw [hdrop]; exact hnotin, ?_⟩
    intro st bid hst hmem
    simp only [recentMessages] at hmem
    rw [hst, hdrop] at hmem
    exact hnotin (List.drop_subset _ _ hmem)

/-- Witness for the bounded-FIFO theorem at 1001 concrete messages. -/
theorem message_store_bounded_fifo_witness :
    fifoMsgs.length = 1001 ∧ fifoMsgs.Nodup ∧
    buildStore fifoMsgs = fifoMsgs.drop 1 ∧
    ∀ m0, fifoMsgs.head? = some m0 → m0 ∉ buildStore fifoMsgs := by
  have hlen : fifoMsgs.length = 1001 := by
    simp [fifoMsgs]
  have hnd : fifoMsgs.Nodup := by
    refine List.Nodup.map ?_ (List.nodup_range 1001)
    intro a b hab
    exact congrArg Msg.id hab
  have h := message_store_bounded_fifo fifoMsgs hlen hnd
  exact ⟨hlen, hnd, h.2.1, fun m0 hm => (h.2.2 m0 hm).1⟩

/-- A predicate true on the written pair survives the in-place rewrite of
`assocSet` when the key is present. -/
theorem any_map_set [BEq κ] (m : List (κ × α)) (k : κ) (v : α)
    (q : κ × α → Bool) (hq : q (k, v) = true)
    (h : m.any (fun p => p.1 == k) = true) :
    (m.map (fun p => if p.1 == k then (k, v) else p)).any q = true := by
  induction m with
  | nil => simp at h
  | cons a as ih =>
    cases ha : (a.1 == k) with
    | true => simp [List.any_cons, ha, hq]
    | false =>
      simp only [List.any_cons, ha, Bool.false_or] at h
      simp [List.any_cons, ha, ih h]

/-- A predicate true on the written pair is true somewhere after
`assocSet`. -/
theorem any_assocSet [BEq κ] [LawfulBEq κ] (m : List (κ × α)) (k : κ) (v : α)
    (q : κ × α → Bool) (hq : q (k, v) = true) :
    (assocSet m k v).any q = true := by
  unfold assocSet
  cases h : m.any (fun p => p.1 == k) with
  | true =>
    simp only [if_pos rfl]
    exact any_map_set m k v q hq h
  | false =>
    simp only [Bool.false_eq_true, if_false, List.any_append, List.any_cons,
      List.any_nil, hq, Bool.true_or, Bool.or_true]

/-- `setAdd` never yields the empty list. -/
theorem setAdd_isEmpty [BEq α] (l : List α) (x : α) :
    (setAdd l x).isEmpty = false := by
  unfold setAdd
  cases l with
  | nil => rfl
  | cons a as =>
    cases h : ((a :: as).contains x) with
    | true => simp [h]
    | false => simp [h]

/-- C9: the add_reaction insert is idempotent — adding the same (message,
emoji, identity) reaction twice leaves the emoji's reactor list unchanged
after the first add, and starting from no reactors the recorded count is 1,
not 2. -/
theorem reaction_add_idempotent (r : List (Nat × List (String × List Nat)))
    (mid : Nat) (emoji : String) (uid : Nat) :
    reactorsOf (recordReaction (recordReaction r mid emoji uid) mid emoji uid)
        mid emoji
      = reactorsOf (recordReaction r mid emoji uid) mid emoji ∧
    (reactorsOf r mid emoji = [] →
      (reactorsOf (recordReaction (recordReaction r mid emoji uid) mid emoji uid)
        mid emoji).length = 1) := by
  constructor
  · rw [reactorsOf_recordReaction, reactorsOf_recordReaction, setAdd_setAdd]
  · intro h0
    rw [reactorsOf_recordReaction, reactorsOf_recordReaction, setAdd_setAdd, h0]
    rfl

/-- Witness for reaction idempotence at concrete inputs. -/
theorem reaction_add_idempotent_witness :
    reactorsOf ([] : List (Nat × List (String × List Nat))) 7 "fire" = [] ∧
    (reactorsOf (recordReaction (recordReaction [] 7 "fire" 3) 7 "fire" 3)
      7 "fire").length = 1 :=
  ⟨rfl, (reaction_add_idempotent [] 7 "fire" 3).2 rfl⟩

/-- C8: for an add_reaction carrying a registered userId, both the
server.js handler and the part_001 handler record the reaction and then
raise while building the broadcast (an unbound `currentBoard`/`boardId`
reference in server.js, `.get` called on the shadowing Set in part_001), so
no message_reactions_update event is emitted. -/
theorem add_reaction_crashes_after_record (st : St) (mid : Nat)
    (emoji : String) (uid : Nat) (u : User)
    (hu : lookupUser st.users uid = some u) :
    (uid ∈ reactorsOf (addReactionServer st mid emoji uid).1.reactions mid emoji ∧
     (addReactionServer st mid emoji uid).2
       = Except.error (JsError.referenceError "currentBoard")) ∧
    (uid ∈ reactorsOf (addReactionP1 st mid emoji uid).1.reactions mid emoji ∧
     (addReactionP1 st mid emoji uid).2
       = Except.error (JsError.typeError "users.get is not a function")) := by
  unfold addReactionServer addReactionP1
  simp only [hu]
  have hmem : uid ∈ reactorsOf (recordReaction st.reactions mid emoji uid)
      mid emoji := by
    rw [reactorsOf_recordReaction]
    exact mem_setAdd _ _
  refine ⟨⟨hmem, by trivial⟩, ⟨hmem, ?_⟩⟩
  have hany : (assocGetD (recordReaction st.reactions mid emoji uid) mid
      []).any (fun p => !p.2.isEmpty) = true := by
    unfold recordReaction
    rw [assocGetD_assocSet]
    refine any_assocSet _ _ _ _ ?_
    simp only [setAdd_isEmpty, Bool.not_false]
  simp only [if_pos hany]

/-- Witness for the add_reaction crash theorem at concrete inputs. -/
theorem add_reaction_crashes_after_record_witness :
    lookupUser initSt.users 1 = some ⟨1, "Anonymous", "AN"⟩ ∧
    (1 ∈ reactorsOf (addReactionServer initSt 7 "fire" 1).1.reactions 7 "fire" ∧
     (addReactionServer initSt 7 "fire" 1).2
       = Except.error (JsError.referenceError "currentBoard")) ∧
    (1 ∈ reactorsOf (addReactionP1 initSt 7 "fire" 1).1.reactions 7 "fire" ∧
     (addReactionP1 initSt 7 "fire" 1).2
       = Except.error (JsError.typeError "users.get is not a function")) := by
  have h := add_reaction_crashes_after_record initSt 7 "fire" 1
    ⟨1, "Anonymous", "AN"⟩ (by decide)
  exact ⟨by decide, h.1, h.2⟩

/-- C10: on the ordinary store path, the events of send_message are the
new_message broadcast followed by exactly one confetti_trigger carrying
the stored message's id when the trimmed text contains "based"
case-insensitively, and no confetti_trigger otherwise; the message stored
on the board carries that id and the trimmed text. -/
theorem confetti_iff_based (cfg : Config) (st : St) (sid : Nat)
    (bid text : String) (uid : Option Nat) (now mid : Nat) (s : Socket) (u : User)
    (hs : lookupSocket st.sockets sid = some s)
    (hlive : s.live = true)
    (hrate : (trimOld (s.timestamps ++ [now]) now).length ≤ 10)
    (hres : resolveUser st.users uid = some u)
    (hmod : jsStrictEq uid cfg.modUserId = false)
    (htrim : jsTrim text ≠ "") :
    ((step cfg st (Input.sendMessage sid bid text uid now mid)).2.filter isConfetti
      = (if hasBased (jsTrim text) then [Ev.confettiTrigger bid mid] else [])) ∧
    ((step cfg st (Input.sendMessage sid bid text uid now mid)).2
      = Ev.newMessage bid ⟨mid, bid, u.id, u.username, u.avatar, jsTrim text, now⟩
          :: (if hasBased (jsTrim text) then [Ev.confettiTrigger bid mid] else [])) ∧
    assocGetD (step cfg st (Input.sendMessage sid bid text uid now mid)).1.messagesMap
        bid []
      = appendBounded (assocGetD st.messagesMap bid [])
          ⟨mid, bid, u.id, u.username, u.avatar, jsTrim text, now⟩ := by
  have hstep : step cfg st (Input.sendMessage sid bid text uid now mid)
      = handleSend cfg st sid bid text uid now mid := rfl
  rw [hstep, handleSend_store_eq cfg st sid bid text uid now mid s u hs hlive
    hrate hres hmod htrim]
  unfold storeAndBroadcast withWindow
  dsimp only
  refine ⟨?_, rfl, ?_⟩
  · cases hb : hasBased (jsTrim text) with
    | true => simp [isConfetti, List.filter]
    | false => simp [isConfetti, List.filter]
  · rw [assocGetD_assocSet]

/-- Witness for the confetti theorem: "this is so based" triggers exactly
one confetti event carrying the message id, "absolutely not" triggers
none. -/
theorem confetti_iff_based_witness :
    ((step ⟨none⟩ (step ⟨none⟩ initSt (Input.connect 1 "ip1")).1
        (Input.sendMessage 1 "b" "this is so based" (some 1) 5 42)).2.filter
      isConfetti = [Ev.confettiTrigger "b" 42]) ∧
    ((step ⟨none⟩ (step ⟨none⟩ initSt (Input.connect 1 "ip1")).1
        (Input.sendMessage 1 "b" "absolutely not" (some 1) 5 43)).2.filter
      isConfetti = []) := by
  have h1 := confetti_iff_based ⟨none⟩ (step ⟨none⟩ initSt (Input.connect 1 "ip1")).1
    1 "b" "this is so based" (some 1) 5 42 ⟨1, "ip1", true, []⟩
    ⟨1, "Anonymous", "AN"⟩ (by decide) rfl (by decide) (by decide) (by decide)
    (by decide)
  have h2 := confetti_iff_based ⟨none⟩ (step ⟨none⟩ initSt (Input.connect 1 "ip1")).1
    1 "b" "absolutely not" (some 1) 5 43 ⟨1, "ip1", true, []⟩
    ⟨1, "Anonymous", "AN"⟩ (by decide) rfl (by decide) (by decide) (by decide)
    (by decide)
  exact ⟨h1.1.trans (by decide), h2.1.trans (by decide)⟩

/-- In part_000, a send_message whose supplied id resolves to no directory
record stops right after the rate-window update with a private "Invalid
user" notice: the full resulting state is the input state with only the
sender's window replaced. -/
theorem p0HandleSend_invalid_eq (cfg : Config) (st : P0St) (sid : Nat)
    (bid text : String) (uid : Option Nat) (now mid : Nat) (s : Socket)
    (hs : lookupSocket st.sockets sid = some s)
    (hlive : s.live = true)
    (hrate : (trimOld (s.timestamps ++ [now]) now).length ≤ 10)
    (hres : p0ResolveUser st.users uid = none) :
    p0HandleSend cfg st sid bid text uid now mid =
      (p0WithWindow st sid (trimOld (s.timestamps ++ [now]) now),
       [Ev.errorNotice sid "Invalid user"]) := by
  have h10 : ¬ (trimOld (s.timestamps ++ [now]) now).length > 10 := by omega
  unfold p0HandleSend p0WithWindow
  simp only [hs, hlive, if_true, if_neg h10, hres]

/-- C2 amended: a sender whose id is not the configured moderator id never
triggers a command.  In server.js every such sender resolves (unregistered
ids fall back to Anonymous) and any text — including "/banip ..." and
"/ban @..." — is stored on the board and broadcast as an ordinary chat
message with the banned set unchanged; in the part_000 variant a sender
whose id resolves to no record is instead stopped with a private error
before the command block, likewise storing nothing and leaving the banned
set unchanged. -/
theorem nonmod_command_text_ordinary (cfg : Config) :
    (∀ (st : St) (sid : Nat) (bid text : String) (uid : Option Nat)
      (now mid : Nat) (s : Socket) (u : User),
      lookupSocket st.sockets sid = some s → s.live = true →
      (trimOld (s.timestamps ++ [now]) now).length ≤ 10 →
      resolveUser st.users uid = some u →
      jsStrictEq uid cfg.modUserId = false →
      jsTrim text ≠ "" →
      (handleSend cfg st sid bid text uid now mid).1.bannedIPs = st.bannedIPs ∧
      assocGetD (handleSend cfg st sid bid text uid now mid).1.messagesMap bid []
        = appendBounded (assocGetD st.messagesMap bid [])
            ⟨mid, bid, u.id, u.username, u.avatar, jsTrim text, now⟩ ∧
      (handleSend cfg st sid bid text uid now mid).2
        = Ev.newMessage bid ⟨mid, bid, u.id, u.username, u.avatar, jsTrim text, now⟩
            :: (if hasBased (jsTrim text) then [Ev.confettiTrigger bid mid] else [])) ∧
    (∀ (st : P0St) (sid : Nat) (bid text : String) (uid : Option Nat)
      (now mid : Nat) (s : Socket),
      lookupSocket st.sockets sid = some s → s.live = true →
      (trimOld (s.timestamps ++ [now]) now).length ≤ 10 →
      p0ResolveUser st.users uid = none →
      (p0HandleSend cfg st sid bid text uid now mid).1.bannedIPs = st.bannedIPs ∧
      (p0HandleSend cfg st sid bid text uid now mid).1.messagesMap = st.messagesMap ∧
      (p0HandleSend cfg st sid bid text uid now mid).2
        = [Ev.errorNotice sid "Invalid user"]) := by
  constructor
  · intro st sid bid text uid now mid s u hs hlive hrate hres hmod htrim
    rw [handleSend_store_eq cfg st sid bid text uid now mid s u hs hlive hrate
      hres hmod htrim]
    unfold storeAndBroadcast withWindow
    dsimp only
    exact ⟨rfl, assocGetD_assocSet _ _ _ _, rfl⟩
  · intro st sid bid text uid now mid s hs hlive hrate hres
    rw [p0HandleSend_invalid_eq cfg st sid bid text uid now mid s hs hlive hrate
      hres]
    unfold p0WithWindow
    exact ⟨rfl, rfl, rfl⟩

/-- Witness for the non-moderator command-text theorem: in server.js an
unregistered sender's (userId 5, moderator configured as 7) "/banip
1.2.3.4" is stored as ordinary chat under the Anonymous fallback with the
banned set unchanged; in part_000 the same send stops with a private
error, also leaving the banned set unchanged. -/
theorem nonmod_command_text_ordinary_witness :
    ((handleSend ⟨some 7⟩ (step ⟨some 7⟩ initSt (Input.connect 1 "ip1")).1
        1 "b" "/banip 1.2.3.4" (some 5) 0 9).1.bannedIPs
      = (step ⟨some 7⟩ initSt (Input.connect 1 "ip1")).1.bannedIPs ∧
     (handleSend ⟨some 7⟩ (step ⟨some 7⟩ initSt (Input.connect 1 "ip1")).1
        1 "b" "/banip 1.2.3.4" (some 5) 0 9).2
      = Ev.newMessage "b" ⟨9, "b", 1, "Anonymous", "AN", "/banip 1.2.3.4", 0⟩
          :: []) ∧
    ((p0HandleSend ⟨some 7⟩ (p0HandleConnect p0Init 1 "ip").1
        1 "b" "/banip 1.2.3.4" (some 5) 0 9).1.bannedIPs
      = (p0HandleConnect p0Init 1 "ip").1.bannedIPs ∧
     (p0HandleSend ⟨some 7⟩ (p0HandleConnect p0Init 1 "ip").1
        1 "b" "/banip 1.2.3.4" (some 5) 0 9).2
      = [Ev.errorNotice 1 "Invalid user"]) := by
  have h := nonmod_command_text_ordinary ⟨some 7⟩
  have h1 := h.1 (step ⟨some 7⟩ initSt (Input.connect 1 "ip1")).1 1 "b"
    "/banip 1.2.3.4" (some 5) 0 9 ⟨1, "ip1", true, []⟩ ⟨1, "Anonymous", "AN"⟩
    (by decide) rfl (by decide) (by decide) (by decide) (by decide)
  have h2 := h.2 (p0HandleConnect p0Init 1 "ip").1 1 "b" "/banip 1.2.3.4"
    (some 5) 0 9 ⟨1, "ip", true, []⟩ (by decide) rfl (by decide) (by decide)
  exact ⟨⟨h1.1, h1.2.2.trans (by decide)⟩, ⟨h2.1, h2.2.2⟩⟩

/-- C3 amended: the unknown-identity error path.  In the part_000 variant a
send_message whose identityId resolves to no directory record emits the
"Invalid user" notice to the sender only and stops — the resulting state
is the input state with only the sender's rate window replaced.  In
server.js an unknown identityId instead falls back to Anonymous; its
error branch fires only when the Anonymous fallback is itself absent, in
which case it behaves the same way. -/
theorem unknown_identity_error_paths (cfg : Config) :
    (∀ (st : P0St) (sid : Nat) (bid text : String) (uid : Option Nat)
      (now mid : Nat) (s : Socket),
      lookupSocket st.sockets sid = some s → s.live = true →
      (trimOld (s.timestamps ++ [now]) now).length ≤ 10 →
      p0ResolveUser st.users uid = none →
      p0HandleSend cfg st sid bid text uid now mid =
        (p0WithWindow st sid (trimOld (s.timestamps ++ [now]) now),
         [Ev.errorNotice sid "Invalid user"])) ∧
    (∀ (st : St) (sid : Nat) (bid text : String) (uid : Option Nat)
      (now mid : Nat) (s : Socket),
      lookupSocket st.sockets sid = some s → s.live = true →
      (trimOld (s.timestamps ++ [now]) now).length ≤ 10 →
      resolveUser st.users uid = none →
      handleSend cfg st sid bid text uid now mid =
        (withWindow st sid (trimOld (s.timestamps ++ [now]) now),
         [Ev.errorNotice sid "Invalid user"])) := by
  constructor
  · intro st sid bid text uid now mid s hs hlive hrate hres
    exact p0HandleSend_invalid_eq cfg st sid bid text uid now mid s hs hlive
      hrate hres
  · intro st sid bid text uid now mid s hs hlive hrate hres
    exact handleSend_invalid_eq cfg st sid bid text uid now mid s hs hlive
      hrate hres

/-- Witness for the unknown-identity error paths at concrete inputs (a
part_000 state with an empty directory; a server.js state whose directory
lacks both the supplied id and the Anonymous fallback). -/
theorem unknown_identity_error_paths_witness :
    p0HandleSend ⟨none⟩ ⟨[], [], [], [], [⟨3, "ip", true, []⟩], 0⟩
        3 "b" "hello" (some 42) 7 8
      = (p0WithWindow ⟨[], [], [], [], [⟨3, "ip", true, []⟩], 0⟩ 3 [7],
         [Ev.errorNotice 3 "Invalid user"]) ∧
    handleSend ⟨none⟩ ⟨[], 0, [], [], [], [⟨3, "ip", true, []⟩], [], 0⟩
        3 "b" "hello" (some 42) 7 8
      = (withWindow ⟨[], 0, [], [], [], [⟨3, "ip", true, []⟩], [], 0⟩ 3 [7],
         [Ev.errorNotice 3 "Invalid user"]) := by
  have h := unknown_identity_error_paths ⟨none⟩
  have h1 := h.1 ⟨[], [], [], [], [⟨3, "ip", true, []⟩], 0⟩ 3 "b" "hello"
    (some 42) 7 8 ⟨3, "ip", true, []⟩ (by decide) rfl (by decide) (by decide)
  have h2 := h.2 ⟨[], 0, [], [], [], [⟨3, "ip", true, []⟩], [], 0⟩ 3 "b" "hello"
    (some 42) 7 8 ⟨3, "ip", true, []⟩ (by decide) rfl (by decide) (by decide)
  exact ⟨h1, h2⟩

/-- C4 amended (for the part_000 variant): registering the same display
name twice (compared case-insensitively after trimming and truncation to
20 units) returns the same identity both times, and the second
registration leaves the directory unchanged — no new identity is minted.
(In server.js registration is NOT idempotent: see the counterexample.) -/
theorem p0_register_idempotent (st : P0St) (username : String)
    (h : jsTrim username ≠ "") :
    (p0Register (p0Register st username).2 username).1
      = (p0Register st username).1 ∧
    (p0Register (p0Register st username).2 username).2
      = (p0Register st username).2 := by
  have htr : (jsTrim username == "") = false := beq_eq_false_iff_ne.mpr h
  unfold p0Register
  simp only [htr, Bool.false_eq_true, if_false]
  cases hf : st.users.find?
      (fun p => jsToLower p.2.username == jsToLower (p0Norm username)) with
  | some p => simp [hf]
  | none =>
    simp only [hf]
    rw [find?_append_left_none _ _ _ hf]
    simp [List.find?_cons]

/-- Witness for part_000 registration idempotence: "Bob" twice, then "BOB"
(case-insensitive match), all return the stable hash id 66966 with no new
record minted. -/
theorem p0_register_idempotent_witness :
    (p0Register (p0Register p0Init "Bob").2 "Bob").1
      = (p0Register p0Init "Bob").1 ∧
    (p0Register (p0Register p0Init "Bob").2 "Bob").2
      = (p0Register p0Init "Bob").2 ∧
    (p0Register p0Init "Bob").1 = some ⟨66966, "Bob", "BO"⟩ ∧
    (p0Register (p0Register p0Init "Bob").2 "BOB").1
      = some ⟨66966, "Bob", "BO"⟩ ∧
    (p0Register p0Init "Bob").2.users.length = 1 := by
  have h := p0_register_idempotent p0Init "Bob" (by decide)
  exact ⟨h.1, h.2, by decide, by decide, by decide⟩

/-- C7 amended: a banned origin is rejected at connect time before ever
becoming active, and the auto-ban path bans the offender's origin and
closes that connection; but `/banip` only adds the parsed origin to the
banned set — every other socket record (in particular a live connection
from the banned origin) is left exactly as it was, so a banned origin CAN
hold a live connection. -/
theorem ban_enforcement_amended (cfg : Config) :
    (∀ (st : St) (sid2 : Nat) (ip : String),
      st.bannedIPs.contains ip = true →
      step cfg st (Input.connect sid2 ip)
        = (st, [Ev.errorNotice sid2 "You are banned from this chat."])) ∧
    (∀ (st : St) (sid : Nat) (bid text : String) (uid : Option Nat)
      (now mid : Nat) (s : Socket) (u : User),
      lookupSocket st.sockets sid = some s → s.live = true →
      (trimOld (s.timestamps ++ [now]) now).length ≤ 10 →
      resolveUser st.users uid = some u →
      jsStrictEq uid cfg.modUserId = true →
      jsTrim text ≠ "" →
      strStarts (jsTrim text) "/banip " = true →
      jsTrim (strDrop (jsTrim text) 7)
          ∈ (handleSend cfg st sid bid text uid now mid).1.bannedIPs ∧
      (handleSend cfg st sid bid text uid now mid).1.sockets
        = updateSocket st.sockets sid
            (fun x => { x with timestamps := trimOld (s.timestamps ++ [now]) now }) ∧
      ∀ (sid2 : Nat) (s2 : Socket), sid2 ≠ sid →
        lookupSocket st.sockets sid2 = some s2 →
        lookupSocket (handleSend cfg st sid bid text uid now mid).1.sockets sid2
          = some s2) ∧
    (∀ (st : St) (sid : Nat) (bid text : String) (uid : Option Nat)
      (now mid : Nat) (s : Socket),
      lookupSocket st.sockets sid = some s → s.live = true →
      (trimOld (s.timestamps ++ [now]) now).length > 10 →
      s.ip ∈ (handleSend cfg st sid bid text uid now mid).1.bannedIPs ∧
      lookupSocket (handleSend cfg st sid bid text uid now mid).1.sockets sid
        = some ⟨s.sid, s.ip, false, []⟩) := by
  refine ⟨fun st sid2 ip h => connect_banned_eq cfg st sid2 ip h, ?_, ?_⟩
  · intro st sid bid text uid now mid s u hs hlive hrate hres hmod htrim hpref
    rw [handleSend_banip_eq cfg st sid bid text uid now mid s u hs hlive hrate
      hres hmod htrim hpref]
    dsimp only
    refine ⟨mem_setAdd _ _, ?_, ?_⟩
    · unfold withWindow
      rfl
    · intro sid2 s2 hne hs2
      show lookupSocket (withWindow st sid
        (trimOld (s.timestamps ++ [now]) now)).sockets sid2 = some s2
      unfold withWindow
      dsimp only
      rw [lookupSocket_updateSocket_ne st.sockets sid sid2
        (fun x => { x with timestamps := trimOld (s.timestamps ++ [now]) now })
        (fun x => rfl) hne]
      exact hs2
  · intro st sid bid text uid now mid s hs hlive hrate
    rw [handleSend_autoban_eq cfg st sid bid text uid now mid s hs hlive hrate]
    dsimp only
    have hlook2 : lookupSocket ({ withWindow st sid
        (trimOld (s.timestamps ++ [now]) now) with
        bannedIPs := setAdd st.bannedIPs s.ip }).sockets sid
        = some ⟨s.sid, s.ip, s.live, trimOld (s.timestamps ++ [now]) now⟩ := by
      show lookupSocket ((withWindow st sid
        (trimOld (s.timestamps ++ [now]) now)).sockets) sid = _
      rw [lookup_withWindow _ _ _ _ hs]
    constructor
    · rw [disconnectSocket_bannedIPs]
      exact mem_setAdd _ _
    · have := disconnectSocket_closes _ sid _ hlook2 hlive
      rw [this]

/-- Witness for the amended ban-enforcement theorem at concrete inputs:
a connect from a pre-banned origin is rejected; the configured moderator
(id 1) issuing "/banip vip" bans "vip" while the victim socket 2 (origin
"vip") stays live and untouched; a socket with 11 window entries is banned
and closed. -/
theorem ban_enforcement_amended_witness :
    step ⟨some 1⟩ ⟨[⟨1, "Anonymous", "AN"⟩], 1, [], [], ["bad"], [], [], 0⟩
        (Input.connect 9 "bad")
      = (⟨[⟨1, "Anonymous", "AN"⟩], 1, [], [], ["bad"], [], [], 0⟩,
         [Ev.errorNotice 9 "You are banned from this chat."]) ∧
    ("vip" ∈ (handleSend ⟨some 1⟩
        (runSteps ⟨some 1⟩ initSt
          [Input.connect 1 "modip", Input.connect 2 "vip"]).1
        1 "b" "/banip vip" (some 1) 0 0).1.bannedIPs ∧
     lookupSocket (handleSend ⟨some 1⟩
        (runSteps ⟨some 1⟩ initSt
          [Input.connect 1 "modip", Input.connect 2 "vip"]).1
        1 "b" "/banip vip" (some 1) 0 0).1.sockets 2
      = some ⟨2, "vip", true, []⟩) ∧
    ("spam" ∈ (handleSend ⟨some 1⟩
        ⟨[⟨1, "Anonymous", "AN"⟩], 1, [], [],
         [], [⟨4, "spam", true, [0,0,0,0,0,0,0,0,0,0]⟩], [], 0⟩
        4 "b" "hi" (some 1) 1 1).1.bannedIPs ∧
     lookupSocket (handleSend ⟨some 1⟩
        ⟨[⟨1, "Anonymous", "AN"⟩], 1, [], [],
         [], [⟨4, "spam", true, [0,0,0,0,0,0,0,0,0,0]⟩], [], 0⟩
        4 "b" "hi" (some 1) 1 1).1.sockets 4
      = some ⟨4, "spam", false, []⟩) := by
  have h := ban_enforcement_amended ⟨some 1⟩
  have h1 := h.1 ⟨[⟨1, "Anonymous", "AN"⟩], 1, [], [], ["bad"], [], [], 0⟩ 9
    "bad" (by decide)
  have h2 := h.2.1 (runSteps ⟨some 1⟩ initSt
      [Input.connect 1 "modip", Input.connect 2 "vip"]).1
    1 "b" "/banip vip" (some 1) 0 0 ⟨1, "modip", true, []⟩
    ⟨1, "Anonymous", "AN"⟩ (by decide) rfl (by decide) (by decide) (by decide)
    (by decide) (by decide)
  have h3 := h.2.2 ⟨[⟨1, "Anonymous", "AN"⟩], 1, [], [],
      [], [⟨4, "spam", true, [0,0,0,0,0,0,0,0,0,0]⟩], [], 0⟩
    4 "b" "hi" (some 1) 1 1 ⟨4, "spam", true, [0,0,0,0,0,0,0,0,0,0]⟩
    (by decide) rfl (by decide)
  refine ⟨h1, ⟨h2.1, ?_⟩, h3⟩
  have h22 := h2.2.2 2 ⟨2, "vip", true, []⟩ (by decide) (by decide)
  exact h22
